import Mathlib

/-!
Verification development for the transport coordination and session lifecycle
layer of the g-analytics-mcp server, shallowly embedded from
src/analytics_mcp/http_server.py and src/analytics_mcp/sse_server.py.
Components whose code lives outside those two files (the MCP library session
manager, the coordinator registry, Starlette routing and middleware semantics,
uvicorn startup) are modelled from the specification, as marked in the relevant
doc comments.
-/

set_option linter.unusedVariables false

namespace AnalyticsMcp

/-! Section: Trust policy (http_server.py, class NoOpSecurity and TrustedHostMiddleware) -/

/-- Embeds `NoOpSecurity.validate_request` from src/analytics_mcp/http_server.py:
it ignores its arguments and returns `None`, which the transport reads as
validation passed. `none` here is the Python `None`; a `some msg` would be a
rejection. -/
def NoOpSecurity.validate_request (declaredHost : String) : Option String :=
  none

/-- Embeds `NoOpSecurity.validate_request_headers` from
src/analytics_mcp/http_server.py: also unconditionally `None`. -/
def NoOpSecurity.validate_request_headers (declaredHost : String) : Option String :=
  none

/-- Modelled from the spec: the transport adapter consults the security object
before running tool logic; a non-`None` result is surfaced as an authorization
failure (the trust-rejection branch), a `None` result lets the request through.
The adapter code itself is in the MCP library, not in src/. -/
def adapterTrustCheck (declaredHost : String) : Except String Unit :=
  match NoOpSecurity.validate_request declaredHost with
  | none => Except.ok ()
  | some e => Except.error e

/-- Modelled from the spec and the Starlette `TrustedHostMiddleware` contract:
a host matches a pattern when the pattern is the wildcard, is equal to the
host, or is a `*.domain` pattern whose domain suffix the host carries. -/
def hostMatchesPattern (pat host : String) : Bool :=
  pat == "*" || host == pat ||
    (pat.startsWith "*." && host.endsWith (pat.drop 1))

/-- The allowed-hosts evaluation of `TrustedHostMiddleware`: any pattern in the
configured list may accept the host. -/
def trustedHostAllows (allowedHosts : List String) (host : String) : Bool :=
  allowedHosts.any (fun p => hostMatchesPattern p host)

/-- The configuration installed in src/analytics_mcp/http_server.py:
`add_middleware(TrustedHostMiddleware, allowed_hosts=["*"])`. -/
def configuredAllowedHosts : List String := ["*"]

/-- C1: under the default configuration the trust policy accepts every declared
host: `NoOpSecurity` returns `None` for every request, the trusted-host
middleware configured with the wildcard accepts every host, and the
trust-rejection (authorization-failure) branch of the adapter check is never
taken. -/
theorem trust_default_total_accept :
    ∀ declaredHost : String,
      NoOpSecurity.validate_request declaredHost = none ∧
      NoOpSecurity.validate_request_headers declaredHost = none ∧
      trustedHostAllows configuredAllowedHosts declaredHost = true ∧
      adapterTrustCheck declaredHost = Except.ok () := by
  intro h
  refine ⟨rfl, rfl, ?_, rfl⟩
  rfl

/-! Section: Session tracker

The lifespan context in src/analytics_mcp/http_server.py delegates session
tracking to `mcp.session_manager.run()`; the session manager itself is MCP
library code, not part of src/. Its lifecycle contract is therefore modelled
from the spec. -/

/-- Modelled from the spec: the four lifecycle states of the Session Tracker,
`idle → accepting → draining → stopped`. -/
inductive TrackerState where
  | idle
  | accepting
  | draining
  | stopped
deriving DecidableEq, Repr

/-- Modelled from the spec: the Session Tracker owns the set of currently
active client sessions (identified here by natural-number ids) together with
its lifecycle state. -/
structure SessionTracker where
  state : TrackerState
  sessions : Finset Nat
deriving DecidableEq

/-- A tracker as constructed before `start()`: idle, no sessions. -/
def SessionTracker.new : SessionTracker :=
  ⟨TrackerState.idle, ∅⟩

/-- Modelled from the spec: `start()` transitions to accepting, is idempotent
if already started, and fails if called after `stop()` (from draining or
stopped). -/
def SessionTracker.start : SessionTracker → Except String SessionTracker
  | ⟨TrackerState.idle, s⟩ => Except.ok ⟨TrackerState.accepting, s⟩
  | ⟨TrackerState.accepting, s⟩ => Except.ok ⟨TrackerState.accepting, s⟩
  | ⟨TrackerState.draining, _⟩ => Except.error "tracker already stopping"
  | ⟨TrackerState.stopped, _⟩ => Except.error "tracker already stopped"

/-- Modelled from the spec: `register(session)` adds a session, failing
whenever the tracker is not in the accepting state. -/
def SessionTracker.register (t : SessionTracker) (sid : Nat) :
    Except String SessionTracker :=
  match t.state with
  | TrackerState.accepting =>
      Except.ok ⟨TrackerState.accepting, insert sid t.sessions⟩
  | _ => Except.error "tracker not accepting"

/-- Modelled from the spec: `unregister(sessionId)` removes a session and is a
total no-op when the session is already absent; it never fails. -/
def SessionTracker.unregister (t : SessionTracker) (sid : Nat) : SessionTracker :=
  ⟨t.state, t.sessions.erase sid⟩

/-- Modelled from the spec: `stop()` passes through draining, forcibly
unregisters every remaining session, and ends in the stopped terminal state. -/
def SessionTracker.stop (t : SessionTracker) : SessionTracker :=
  ⟨TrackerState.stopped, ∅⟩

/-- A sequence of connect events: register each id in turn, propagating the
first failure. -/
def registerAll : SessionTracker → List Nat → Except String SessionTracker
  | t, [] => Except.ok t
  | t, sid :: rest =>
      match t.register sid with
      | Except.ok t2 => registerAll t2 rest
      | Except.error e => Except.error e

/-- A sequence of disconnect events: unregister each id in turn. -/
def unregisterAll : SessionTracker → List Nat → SessionTracker
  | t, [] => t
  | t, sid :: rest => unregisterAll (t.unregister sid) rest

/-- The number of active sessions the tracker reports. -/
def SessionTracker.count (t : SessionTracker) : Nat :=
  t.sessions.card

theorem registerAll_accepting (ids : List Nat) :
    ∀ s : Finset Nat,
      registerAll ⟨TrackerState.accepting, s⟩ ids =
        Except.ok ⟨TrackerState.accepting, ids.foldl (fun a i => insert i a) s⟩ := by
  induction ids with
  | nil => intro s; rfl
  | cons i rest ih =>
      intro s
      simpa [registerAll, SessionTracker.register, List.foldl] using ih (insert i s)

theorem foldl_insert_card (ids : List Nat) :
    ∀ s : Finset Nat, ids.Nodup → (∀ i ∈ ids, i ∉ s) →
      (ids.foldl (fun a i => insert i a) s).card = s.card + ids.length := by
  induction ids with
  | nil => intro s _ _; simp
  | cons i rest ih =>
      intro s hnd hdis
      have hni : i ∉ s := hdis i (by simp)
      have hnd2 : rest.Nodup := (List.nodup_cons.mp hnd).2
      have hnotin : i ∉ rest := (List.nodup_cons.mp hnd).1
      have hdis2 : ∀ j ∈ rest, j ∉ insert i s := by
        intro j hj
        have hji : j ≠ i := fun h => hnotin (h ▸ hj)
        have hjs : j ∉ s := hdis j (by simp [hj])
        simp [Finset.mem_insert, hji, hjs]
      have := ih (insert i s) hnd2 hdis2
      simp only [List.foldl] at *
      rw [this, Finset.card_insert_of_not_mem hni]
      simp [List.length_cons]
      omega

theorem foldl_insert_mem (ids : List Nat) :
    ∀ (s : Finset Nat) (j : Nat),
      j ∈ ids.foldl (fun a i => insert i a) s ↔ j ∈ ids ∨ j ∈ s := by
  induction ids with
  | nil => intro s j; simp
  | cons i rest ih =>
      intro s j
      simp only [List.foldl, ih (insert i s) j, Finset.mem_insert, List.mem_cons]
      tauto

theorem unregisterAll_state (ids : List Nat) :
    ∀ t : SessionTracker, (unregisterAll t ids).state = t.state := by
  induction ids with
  | nil => intro t; rfl
  | cons i rest ih => intro t; simpa [unregisterAll, SessionTracker.unregister] using ih _

theorem unregisterAll_card (ids : List Nat) :
    ∀ t : SessionTracker, ids.Nodup → (∀ i ∈ ids, i ∈ t.sessions) →
      (unregisterAll t ids).sessions.card = t.sessions.card - ids.length := by
  induction ids with
  | nil => intro t _ _; simp [unregisterAll]
  | cons i rest ih =>
      intro t hnd hmem
      have hi : i ∈ t.sessions := hmem i (by simp)
      have hnd2 : rest.Nodup := (List.nodup_cons.mp hnd).2
      have hnotin : i ∉ rest := (List.nodup_cons.mp hnd).1
      have hmem2 : ∀ j ∈ rest, j ∈ (t.unregister i).sessions := by
        intro j hj
        have hji : j ≠ i := fun h => hnotin (h ▸ hj)
        have hjs : j ∈ t.sessions := hmem j (by simp [hj])
        simp [SessionTracker.unregister, Finset.mem_erase, hji, hjs]
      have := ih (t.unregister i) hnd2 hmem2
      simp only [unregisterAll] at *
      rw [this]
      simp [SessionTracker.unregister, Finset.card_erase_of_mem hi]
      omega

/-- C2: the Session Tracker lifecycle is the one-directional machine
idle → accepting → draining → stopped: `start` is idempotent while accepting
and fails after `stop`; `register` fails whenever the tracker is not
accepting; from the stopped state no operation re-enters accepting; after N
distinct connect registrations and M ≤ N disconnects the tracker reports
exactly N − M active sessions; and `stop` forcibly unregisters every
remaining session so the count is zero afterwards regardless of prior
count. -/
theorem sessionTracker_lifecycle :
    (∀ t : SessionTracker, t.state = TrackerState.accepting → t.start = Except.ok t) ∧
    (∀ t : SessionTracker, (t.stop).start.isOk = false) ∧
    (∀ (t : SessionTracker) (sid : Nat),
        t.state ≠ TrackerState.accepting → (t.register sid).isOk = false) ∧
    (∀ (t : SessionTracker) (sid : Nat), t.state = TrackerState.stopped →
        t.start.isOk = false ∧ (t.register sid).isOk = false ∧
        (t.unregister sid).state = TrackerState.stopped ∧
        (t.stop).state = TrackerState.stopped) ∧
    (∀ connects disconnects : List Nat,
        connects.Nodup → disconnects.Nodup → disconnects ⊆ connects →
        (registerAll (SessionTracker.mk TrackerState.accepting ∅) connects).map
            SessionTracker.count = Except.ok connects.length ∧
        (registerAll (SessionTracker.mk TrackerState.accepting ∅) connects).map
            (fun t => (unregisterAll t disconnects).count) =
          Except.ok (connects.length - disconnects.length)) ∧
    (∀ t : SessionTracker,
        (t.stop).count = 0 ∧ (t.stop).state = TrackerState.stopped) := by
  refine ⟨?_, ?_, ?_, ?_, ?_, ?_⟩
  · rintro ⟨st, s⟩ h
    cases st <;> simp_all [SessionTracker.start]
  · rintro ⟨st, s⟩
    simp [SessionTracker.stop, SessionTracker.start, Except.isOk, Except.toBool]
  · rintro ⟨st, s⟩ sid h
    cases st <;> simp_all [SessionTracker.register, Except.isOk, Except.toBool]
  · rintro ⟨st, s⟩ sid h
    cases st <;> simp_all [SessionTracker.start, SessionTracker.register,
      SessionTracker.unregister, SessionTracker.stop, Except.isOk, Except.toBool]
  · intro connects disconnects hndc hndd hsub
    have hreg := registerAll_accepting connects (∅ : Finset Nat)
    have hdisc : ∀ i ∈ connects, i ∉ (∅ : Finset Nat) := by simp
    have hcard := foldl_insert_card connects ∅ hndc hdisc
    constructor
    · rw [hreg]
      simp [Except.map, SessionTracker.count, hcard]
    · rw [hreg]
      have hmem : ∀ j ∈ disconnects,
          j ∈ (SessionTracker.mk TrackerState.accepting
              (connects.foldl (fun a i => insert i a) ∅)).sessions := by
        intro j hj
        have : j ∈ connects := hsub hj
        simp [foldl_insert_mem, this]
      have := unregisterAll_card disconnects
        (SessionTracker.mk TrackerState.accepting
          (connects.foldl (fun a i => insert i a) ∅)) hndd hmem
      simp only [Except.map, SessionTracker.count]
      rw [this]
      simp [hcard]
  · intro t
    simp [SessionTracker.stop, SessionTracker.count]

/-- Concrete witness for the lifecycle theorem: three connects, two
disconnects, one remaining session; register fails on a stopped tracker. -/
theorem sessionTracker_lifecycle_witness :
    (SessionTracker.mk TrackerState.accepting {7}).start =
      Except.ok (SessionTracker.mk TrackerState.accepting {7}) ∧
    ((SessionTracker.mk TrackerState.stopped ∅).register 1).isOk = false ∧
    (registerAll (SessionTracker.mk TrackerState.accepting ∅) [1, 2, 3]).map
        (fun t => (unregisterAll t [1, 2]).count) = Except.ok 1 := by
  have h := sessionTracker_lifecycle
  refine ⟨h.1 _ rfl, h.2.2.1 _ 1 (by decide), ?_⟩
  have := (h.2.2.2.2.1 [1, 2, 3] [1, 2] (by decide) (by decide)
    (by intro a ha; fin_cases ha <;> decide)).2
  simpa using this

/-- C8: unregistering is idempotent: for every session id, unregistering an
absent session is a no-op (and never fails, since `unregister` is total), so
unregistering the same id twice leaves the tracker, and in particular its
active-session count, unchanged after the first call. -/
theorem unregister_idempotent :
    (∀ (t : SessionTracker) (sid : Nat), sid ∉ t.sessions → t.unregister sid = t) ∧
    (∀ (t : SessionTracker) (sid : Nat),
        (t.unregister sid).unregister sid = t.unregister sid) ∧
    (∀ (t : SessionTracker) (sid : Nat),
        ((t.unregister sid).unregister sid).count = (t.unregister sid).count) := by
  have habs : ∀ (t : SessionTracker) (sid : Nat),
      sid ∉ t.sessions → t.unregister sid = t := by
    rintro ⟨st, s⟩ sid h
    simp [SessionTracker.unregister, Finset.erase_eq_of_not_mem h]
  have htwice : ∀ (t : SessionTracker) (sid : Nat),
      (t.unregister sid).unregister sid = t.unregister sid := by
    intro t sid
    exact habs (t.unregister sid) sid (by simp [SessionTracker.unregister])
  exact ⟨habs, htwice, fun t sid => by rw [htwice]⟩

/-- Concrete witness for unregister idempotence: removing an id that is not in
the session set leaves the tracker unchanged. -/
theorem unregister_idempotent_witness :
    (SessionTracker.mk TrackerState.accepting {2}).unregister 5 =
      SessionTracker.mk TrackerState.accepting {2} := by
  exact unregister_idempotent.1 _ 5 (by decide)

/-! Section: Shared tool registry and the two transport apps

The coordinator object `mcp` (analytics_mcp/coordinator) and the FastMCP
methods `streamable_http_app()` / `sse_app()` are not in src/; both
src/analytics_mcp/http_server.py and src/analytics_mcp/sse_server.py import
the one `mcp` object and the same three tool modules
(tools.admin.info, tools.reporting.realtime, tools.reporting.core), and
http_server.py derives both transport apps from it. -/

/-- Modelled from the spec: the process-wide Tool Registry, a catalog of tool
names populated once at startup. -/
structure ToolRegistry where
  tools : List String
deriving DecidableEq

/-- Modelled from the spec: importing a tool module registers its tools
against the shared registry. -/
def registerTools (r : ToolRegistry) (names : List String) : ToolRegistry :=
  ⟨r.tools ++ names⟩

/-- Modelled from the spec: the registry of the shared coordinator `mcp`
object after the three tool-module imports performed by both entry points
(admin.info, reporting.realtime, reporting.core). -/
def coordinatorRegistry (adminTools realtimeTools coreTools : List String) :
    ToolRegistry :=
  registerTools (registerTools (registerTools ⟨[]⟩ adminTools) realtimeTools) coreTools

/-- A transport app; what matters to the claims is which registered tools it
serves. -/
structure TransportApp where
  registryTools : List String
deriving DecidableEq

/-- Modelled from the spec: `mcp.streamable_http_app()` builds the streaming
/mcp transport app over the registry of the one `mcp` object. -/
def streamable_http_app (r : ToolRegistry) : TransportApp :=
  ⟨r.tools⟩

/-- Modelled from the spec: `mcp.sse_app()` builds the event-stream /sse
transport app over the registry of the same `mcp` object. -/
def sse_app (r : ToolRegistry) : TransportApp :=
  ⟨r.tools⟩

/-- A tool name is invocable through a transport app when it is among the
registered tools that app serves. -/
def TransportApp.invocable (a : TransportApp) (name : String) : Bool :=
  a.registryTools.contains name

/-- C3: both transport adapters expose exactly the same set of registered
tools: whatever the three tool modules registered, a tool name is invocable
through the streaming /mcp app if and only if it is invocable through the
event-stream /sse app, because both apps are derived from the one shared
registry object without duplicating registrations. -/
theorem transports_same_tools :
    ∀ (adminTools realtimeTools coreTools : List String) (name : String),
      (streamable_http_app (coordinatorRegistry adminTools realtimeTools coreTools)).invocable
          name =
        (sse_app (coordinatorRegistry adminTools realtimeTools coreTools)).invocable name ∧
      ∀ r : ToolRegistry,
        (streamable_http_app r).invocable name = (sse_app r).invocable name := by
  intro adminTools realtimeTools coreTools name
  exact ⟨rfl, fun r => rfl⟩

/-! Section: Request router (http_server.py, starlette_app routes) -/

/-- Character-list test that `pat` is an initial segment of `s`; the logical
content of a string starts-with test, written out so that proofs can recurse
on it. -/
def listStarts : List Char → List Char → Bool
  | [], _ => true
  | _ :: _, [] => false
  | a :: as, b :: bs => a == b && listStarts as bs

/-- The three dispatch targets configured in src/analytics_mcp/http_server.py:
the health handler and the two mounted transport apps. -/
inductive RouteTarget where
  | healthEndpoint
  | streamableHttpApp
  | sseLegacyApp
deriving DecidableEq, Repr

/-- A RouteBinding, as in the `routes=[...]` list of `Starlette(...)`: either
an exact-path `Route` or a `Mount` under a path root. -/
inductive Binding where
  | route (path : String) (target : RouteTarget)
  | mount (root : String) (target : RouteTarget)
deriving DecidableEq, Repr

/-- The target a binding dispatches to. -/
def Binding.target : Binding → RouteTarget
  | Binding.route _ t => t
  | Binding.mount _ t => t

/-- The slash character separating path segments. -/
def slash : Char := '/'

/-- Starlette matching semantics: a `Route` matches its exact path; a `Mount`
matches its root exactly or any path continuing the root with a slash. -/
def Binding.matches (b : Binding) (path : String) : Bool :=
  match b with
  | Binding.route p _ => path == p
  | Binding.mount p _ => path == p || listStarts (p.data ++ [slash]) path.data

/-- The route table of `starlette_app` in src/analytics_mcp/http_server.py:
`Route("/health", health_check)`, `Mount("/mcp", app=streamable_http)`,
`Mount("/sse", app=sse_legacy)`, in that order. -/
def appRoutes : List Binding :=
  [Binding.route "/health" RouteTarget.healthEndpoint,
   Binding.mount "/mcp" RouteTarget.streamableHttpApp,
   Binding.mount "/sse" RouteTarget.sseLegacyApp]

/-- Outcome of routing one inbound request path. -/
inductive DispatchResult where
  | dispatched (t : RouteTarget)
  | notFound
deriving DecidableEq, Repr

/-- Starlette dispatch: the first binding whose matcher accepts the path wins;
with no match the app answers with a 404-equivalent outcome. -/
def dispatch (path : String) : DispatchResult :=
  match appRoutes.find? (fun b => b.matches path) with
  | some b => DispatchResult.dispatched b.target
  | none => DispatchResult.notFound

theorem listStarts_total (l : List Char) :
    ∀ p q : List Char, listStarts p l = true → listStarts q l = true →
      listStarts p q = true ∨ listStarts q p = true := by
  induction l with
  | nil =>
      intro p q hp hq
      cases p with
      | nil => left; rfl
      | cons a as => simp [listStarts] at hp
  | cons c ls ih =>
      intro p q hp hq
      cases p with
      | nil => left; rfl
      | cons a as =>
          cases q with
          | nil => right; rfl
          | cons b bs =>
              simp only [listStarts, Bool.and_eq_true, beq_iff_eq] at hp hq
              rcases ih as bs hp.2 hq.2 with h | h
              · left; simp [listStarts, hp.1, hq.1, h]
              · right; simp [listStarts, hp.1, hq.1, h]

theorem health_mcp_excl (path : String) :
    ¬((Binding.route "/health" RouteTarget.healthEndpoint).matches path = true ∧
      (Binding.mount "/mcp" RouteTarget.streamableHttpApp).matches path = true) := by
  rintro ⟨h1, h2⟩
  have hp : path = "/health" := by
    simpa [Binding.matches] using h1
  subst hp
  simp [Binding.matches, slash, listStarts] at h2

theorem health_sse_excl (path : String) :
    ¬((Binding.route "/health" RouteTarget.healthEndpoint).matches path = true ∧
      (Binding.mount "/sse" RouteTarget.sseLegacyApp).matches path = true) := by
  rintro ⟨h1, h2⟩
  have hp : path = "/health" := by
    simpa [Binding.matches] using h1
  subst hp
  simp [Binding.matches, slash, listStarts] at h2

theorem mcp_sse_excl (path : String) :
    ¬((Binding.mount "/mcp" RouteTarget.streamableHttpApp).matches path = true ∧
      (Binding.mount "/sse" RouteTarget.sseLegacyApp).matches path = true) := by
  rintro ⟨h1, h2⟩
  simp only [Binding.matches, Bool.or_eq_true, beq_iff_eq] at h1 h2
  rcases h1 with h1 | h1
  · subst h1
    rcases h2 with h2 | h2
    · exact absurd h2 (by decide)
    · exact absurd h2 (by decide)
  · rcases h2 with h2 | h2
    · subst h2
      exact absurd h1 (by decide)
    · rcases listStarts_total path.data _ _ h1 h2 with h | h
      · exact absurd h (by decide)
      · exact absurd h (by decide)

/-- C5: the Request Router has exactly one liveness route (/health), one
streaming-transport mount (/mcp) and one event-stream mount (/sse); their
path matchers never overlap, so every path matches at most one binding; any
request matching a binding dispatches to that unique binding, and a request
matching none yields the 404-equivalent `notFound` outcome. -/
theorem router_dispatch_unique :
    (appRoutes.countP (fun b => b ==
        Binding.route "/health" RouteTarget.healthEndpoint) = 1 ∧
      appRoutes.countP (fun b => b ==
        Binding.mount "/mcp" RouteTarget.streamableHttpApp) = 1 ∧
      appRoutes.countP (fun b => b ==
        Binding.mount "/sse" RouteTarget.sseLegacyApp) = 1 ∧
      appRoutes.length = 3) ∧
    (∀ path : String, appRoutes.countP (fun b => b.matches path) ≤ 1) ∧
    (∀ (path : String) (b : Binding), b ∈ appRoutes → b.matches path = true →
      dispatch path = DispatchResult.dispatched b.target) ∧
    (∀ path : String, (∀ b ∈ appRoutes, b.matches path = false) →
      dispatch path = DispatchResult.notFound) := by
  refine ⟨by decide, ?_, ?_, ?_⟩
  · intro path
    simp only [appRoutes, List.countP_cons, List.countP_nil]
    rcases h1 : (Binding.route "/health" RouteTarget.healthEndpoint).matches path with _ | _
    <;> rcases h2 : (Binding.mount "/mcp" RouteTarget.streamableHttpApp).matches path with _ | _
    <;> rcases h3 : (Binding.mount "/sse" RouteTarget.sseLegacyApp).matches path with _ | _
    <;> simp_all
    · exact mcp_sse_excl path ⟨h2, h3⟩
    · exact health_sse_excl path ⟨h1, h3⟩
    · exact health_mcp_excl path ⟨h1, h2⟩
    · exact health_mcp_excl path ⟨h1, h2⟩
  · intro path b hb hm
    have hmem : b = Binding.route "/health" RouteTarget.healthEndpoint ∨
        b = Binding.mount "/mcp" RouteTarget.streamableHttpApp ∨
        b = Binding.mount "/sse" RouteTarget.sseLegacyApp := by
      simpa [appRoutes] using hb
    rcases hmem with rfl | rfl | rfl
    · simp [dispatch, appRoutes, List.find?, hm, Binding.target]
    · have hh : (Binding.route "/health" RouteTarget.healthEndpoint).matches path = false := by
        by_contra hc
        exact health_mcp_excl path ⟨by simpa using hc, hm⟩
      simp [dispatch, appRoutes, List.find?, hh, hm, Binding.target]
    · have hh : (Binding.route "/health" RouteTarget.healthEndpoint).matches path = false := by
        by_contra hc
        exact health_sse_excl path ⟨by simpa using hc, hm⟩
      have hm2 : (Binding.mount "/mcp" RouteTarget.streamableHttpApp).matches path = false := by
        by_contra hc
        exact mcp_sse_excl path ⟨by simpa using hc, hm⟩
      simp [dispatch, appRoutes, List.find?, hh, hm2, hm, Binding.target]
  · intro path hnone
    have h1 := hnone (Binding.route "/health" RouteTarget.healthEndpoint) (by simp [appRoutes])
    have h2 := hnone (Binding.mount "/mcp" RouteTarget.streamableHttpApp) (by simp [appRoutes])
    have h3 := hnone (Binding.mount "/sse" RouteTarget.sseLegacyApp) (by simp [appRoutes])
    simp [dispatch, appRoutes, List.find?, h1, h2, h3]

/-- Concrete witness for the router theorem: a path under /mcp dispatches to
the streaming app, and an unbound path yields the 404-equivalent outcome. -/
theorem router_dispatch_unique_witness :
    dispatch "/mcp/messages" = DispatchResult.dispatched RouteTarget.streamableHttpApp ∧
    dispatch "/nothing-here" = DispatchResult.notFound := by
  have h := router_dispatch_unique
  constructor
  · exact h.2.2.1 "/mcp/messages"
      (Binding.mount "/mcp" RouteTarget.streamableHttpApp) (by decide) (by decide)
  · exact h.2.2.2 "/nothing-here" (by decide)

/-! Section: Health endpoint (http_server.py, health_check) -/

/-- An inbound request as the health handler sees it; the handler ignores all
of it. -/
structure Request where
  method : String
  path : String
deriving DecidableEq

/-- A response; `status_code` defaults to 200 in the framework constructor
used by the source (`Response("OK", media_type="text/plain")`). -/
structure Response where
  status_code : Nat
  body : String
  media_type : String
deriving DecidableEq, Repr

/-- Embeds `health_check` from src/analytics_mcp/http_server.py: it returns
`Response("OK", media_type="text/plain")` without consulting any other
state. -/
def health_check (request : Request) : Response :=
  ⟨200, "OK", "text/plain"⟩

/-- C6: every GET /health request receives a 200 plain-text response, and the
response is computed without reading the Tool Registry or the Session
Tracker: it is the same for every registry content and every tracker state,
in particular when no tool invocation has ever succeeded or those subsystems
are degraded. -/
theorem health_ok :
    ∀ (registry : ToolRegistry) (tracker : SessionTracker) (request : Request),
      (health_check request).status_code = 200 ∧
      (health_check request).media_type = "text/plain" ∧
      health_check request = ⟨200, "OK", "text/plain"⟩ ∧
      ∀ request2 : Request, health_check request = health_check request2 := by
  intro registry tracker request
  exact ⟨rfl, rfl, rfl, fun request2 => rfl⟩

/-! Section: Startup and shutdown ordering

The ordering comes from module evaluation order in
src/analytics_mcp/http_server.py (tool-module imports precede the
construction of the transport apps) together with the Starlette lifespan and
uvicorn run loop, which are library code; the event trace is therefore
modelled from the spec. -/

/-- The lifecycle events of one server process run. -/
inductive LifecycleEvent where
  | toolsRegistered
  | registryFrozen
  | trackerStart
  | acceptBegin
  | acceptEnd
  | trackerStop
deriving DecidableEq, Repr

/-- Modelled from the spec: the event order of a run of `starlette_app` under
uvicorn. Tool modules are imported (registering their tools) before the two
transport apps are built from the completed registry; the lifespan enters
`mcp.session_manager.run()` before uvicorn starts accepting; on a
termination signal uvicorn stops accepting and only then exits the lifespan,
stopping the tracker. -/
def serverTrace : List LifecycleEvent :=
  [LifecycleEvent.toolsRegistered, LifecycleEvent.registryFrozen,
   LifecycleEvent.trackerStart, LifecycleEvent.acceptBegin,
   LifecycleEvent.acceptEnd, LifecycleEvent.trackerStop]

/-- The router is accepting connections at position `i` of the trace when
accepting has begun and shutdown (the end of accepting) has not yet been
reached. -/
def acceptingAt (i : Nat) : Bool :=
  decide (serverTrace.indexOf LifecycleEvent.acceptBegin ≤ i) &&
    decide (i < serverTrace.indexOf LifecycleEvent.acceptEnd)

/-- C4: startup ordering is strict: tools are registered and the registry is
frozen before the Session Tracker starts, the tracker starts before the
router begins accepting, shutdown stops accepting before the tracker stops,
and at every trace position where the router is accepting the registry
freeze lies strictly in the past and the shutdown point strictly in the
future. -/
theorem startup_ordering :
    serverTrace.indexOf LifecycleEvent.toolsRegistered <
      serverTrace.indexOf LifecycleEvent.registryFrozen ∧
    serverTrace.indexOf LifecycleEvent.registryFrozen <
      serverTrace.indexOf LifecycleEvent.trackerStart ∧
    serverTrace.indexOf LifecycleEvent.trackerStart <
      serverTrace.indexOf LifecycleEvent.acceptBegin ∧
    serverTrace.indexOf LifecycleEvent.acceptEnd <
      serverTrace.indexOf LifecycleEvent.trackerStop ∧
    (∀ i : Nat, acceptingAt i = true →
      serverTrace.indexOf LifecycleEvent.registryFrozen < i ∧
        i < serverTrace.indexOf LifecycleEvent.acceptEnd) := by
  have e1 : serverTrace.indexOf LifecycleEvent.registryFrozen = 1 := by decide
  have e3 : serverTrace.indexOf LifecycleEvent.acceptBegin = 3 := by decide
  have e4 : serverTrace.indexOf LifecycleEvent.acceptEnd = 4 := by decide
  refine ⟨by decide, by decide, by decide, by decide, ?_⟩
  intro i h
  simp only [acceptingAt, e3, e4, Bool.and_eq_true, decide_eq_true_eq] at h
  rw [e1, e4]
  omega

/-- Concrete witness for the ordering theorem: position 3 of the trace is an
accepting position, placed after the registry freeze and before shutdown. -/
theorem startup_ordering_witness :
    serverTrace.indexOf LifecycleEvent.registryFrozen < 3 ∧
      3 < serverTrace.indexOf LifecycleEvent.acceptEnd := by
  exact startup_ordering.2.2.2.2 3 (by decide)

/-! Section: Cross-origin configuration (http_server.py, CORSMiddleware) -/

/-- The CORS configuration surface, one field per keyword argument of
`add_middleware(CORSMiddleware, ...)`. -/
structure CORSConfig where
  allow_origins : List String
  allow_credentials : Bool
  allow_methods : List String
  allow_headers : List String
  expose_headers : List String
deriving DecidableEq

/-- The configuration installed in src/analytics_mcp/http_server.py on the
whole app, so it governs every response served. -/
def corsConfig : CORSConfig :=
  ⟨["*"], true, ["*"], ["*"], ["Mcp-Session-Id"]⟩

/-- Modelled from the Starlette CORS semantics: an origin is permitted when
the wildcard is configured or the origin is listed. -/
def CORSConfig.originAllowed (c : CORSConfig) (origin : String) : Bool :=
  c.allow_origins.contains "*" || c.allow_origins.contains origin

/-- A method is permitted when the wildcard is configured or the method is
listed. -/
def CORSConfig.methodAllowed (c : CORSConfig) (m : String) : Bool :=
  c.allow_methods.contains "*" || c.allow_methods.contains m

/-- A request header is permitted when the wildcard is configured or the
header is listed. -/
def CORSConfig.headerAllowed (c : CORSConfig) (h : String) : Bool :=
  c.allow_headers.contains "*" || c.allow_headers.contains h

/-- C9: the cross-origin configuration permits every origin, every method and
every header, allows credentials, and exposes the session-identifying
Mcp-Session-Id response header to browser clients. -/
theorem cors_permissive :
    corsConfig.allow_credentials = true ∧
    (∀ origin : String, corsConfig.originAllowed origin = true) ∧
    (∀ m : String, corsConfig.methodAllowed m = true) ∧
    (∀ h : String, corsConfig.headerAllowed h = true) ∧
    corsConfig.expose_headers.contains "Mcp-Session-Id" = true := by
  have hstar : (["*"] : List String).contains "*" = true := by decide
  refine ⟨rfl, ?_, ?_, ?_, by decide⟩
  · intro origin
    simp [CORSConfig.originAllowed, corsConfig, hstar]
  · intro m
    simp [CORSConfig.methodAllowed, corsConfig, hstar]
  · intro h
    simp [CORSConfig.headerAllowed, corsConfig, hstar]

/-! Section: Listener configuration (run_http_server, run_sse_server) -/

/-- The process environment: a partial map from variable name to value, as
read by `os.getenv`. -/
def Env := String → Option String

/-- Accumulates decimal digits, allowing a single underscore between two
digits as Python `int` does. -/
def pyDigitsAux : Nat → List Char → Option Nat
  | acc, [] => some acc
  | acc, '_' :: c :: rest =>
      if c.isDigit then pyDigitsAux (10 * acc + (c.toNat - 48)) rest else none
  | acc, c :: rest =>
      if c.isDigit then pyDigitsAux (10 * acc + (c.toNat - 48)) rest else none

/-- One or more decimal digits with optional single underscores between
digits; `none` on anything else, including the empty string. -/
def pyDigits : List Char → Option Nat
  | [] => none
  | c :: rest => if c.isDigit then pyDigitsAux (c.toNat - 48) rest else none

/-- Modelled from the Python `int(str)` builtin used by both entry points:
surrounding whitespace is stripped, an optional sign precedes the digits, and
any other shape raises `ValueError`, here an `Except.error`. -/
def pyInt (s : String) : Except String Int :=
  match ((s.data.dropWhile Char.isWhitespace).reverse.dropWhile
      Char.isWhitespace).reverse with
  | '+' :: rest =>
      match pyDigits rest with
      | some n => Except.ok (Int.ofNat n)
      | none => Except.error "invalid literal for int() with base 10"
  | '-' :: rest =>
      match pyDigits rest with
      | some n => Except.ok (-(Int.ofNat n))
      | none => Except.error "invalid literal for int() with base 10"
  | rest =>
      match pyDigits rest with
      | some n => Except.ok (Int.ofNat n)
      | none => Except.error "invalid literal for int() with base 10"

/-- A host/port pair handed to the network listener. -/
structure BindConfig where
  host : String
  port : Int
deriving DecidableEq, Repr

/-- What startup does after reading its configuration: either the listener is
bound on a host and port (`uvicorn.run` / `mcp.run` is reached), or port
parsing raised and the process exits before any socket is bound. -/
inductive StartupOutcome where
  | bound (c : BindConfig)
  | raised (e : String)
deriving DecidableEq, Repr

/-- True exactly when startup reached the socket bind. -/
def StartupOutcome.isBound : StartupOutcome → Bool
  | StartupOutcome.bound _ => true
  | StartupOutcome.raised _ => false

/-- Embeds `run_http_server` from src/analytics_mcp/http_server.py:
`host = os.getenv("MCP_HOST", "0.0.0.0")`,
`port = int(os.getenv("MCP_PORT", "8000"))`, then `uvicorn.run(...)`. The
`int` call runs before any bind, so a parse failure raises first. -/
def run_http_server (env : Env) : StartupOutcome :=
  match pyInt ((env "MCP_PORT").getD "8000") with
  | Except.ok port => StartupOutcome.bound ⟨(env "MCP_HOST").getD "0.0.0.0", port⟩
  | Except.error e => StartupOutcome.raised e

/-- Embeds `run_sse_server` from src/analytics_mcp/sse_server.py:
`host = os.getenv("MCP_SSE_HOST", os.getenv("MCP_HOST", "127.0.0.1"))`,
`port = int(os.getenv("MCP_SSE_PORT", os.getenv("MCP_PORT", "8000")))`,
then `mcp.run(transport=...)` with those settings. -/
def run_sse_server (env : Env) : StartupOutcome :=
  match pyInt ((env "MCP_SSE_PORT").getD ((env "MCP_PORT").getD "8000")) with
  | Except.ok port =>
      StartupOutcome.bound
        ⟨(env "MCP_SSE_HOST").getD ((env "MCP_HOST").getD "127.0.0.1"), port⟩
  | Except.error e => StartupOutcome.raised e

/-- C7: the listener host defaults to all interfaces (0.0.0.0) and the port to
8000, each overridable through MCP_HOST / MCP_PORT; in the event-stream-only
mode the separate MCP_SSE_HOST / MCP_SSE_PORT overrides take precedence over
MCP_HOST / MCP_PORT and the host default is loopback (127.0.0.1). -/
theorem bind_defaults_overrides :
    run_http_server (fun k => none) = StartupOutcome.bound ⟨"0.0.0.0", 8000⟩ ∧
    (∀ (env : Env) (h : String) (c : BindConfig), env "MCP_HOST" = some h →
        run_http_server env = StartupOutcome.bound c → c.host = h) ∧
    (∀ (env : Env) (s : String) (n : Int) (c : BindConfig), env "MCP_PORT" = some s →
        pyInt s = Except.ok n →
        run_http_server env = StartupOutcome.bound c → c.port = n) ∧
    run_sse_server (fun k => none) = StartupOutcome.bound ⟨"127.0.0.1", 8000⟩ ∧
    (∀ (env : Env) (h : String) (c : BindConfig), env "MCP_SSE_HOST" = some h →
        run_sse_server env = StartupOutcome.bound c → c.host = h) ∧
    (∀ (env : Env) (h : String) (c : BindConfig), env "MCP_SSE_HOST" = none →
        env "MCP_HOST" = some h →
        run_sse_server env = StartupOutcome.bound c → c.host = h) ∧
    (∀ (env : Env) (s : String) (n : Int) (c : BindConfig), env "MCP_SSE_PORT" = some s →
        pyInt s = Except.ok n →
        run_sse_server env = StartupOutcome.bound c → c.port = n) := by
  refine ⟨by decide, ?_, ?_, by decide, ?_, ?_, ?_⟩
  · intro env h c he hr
    rcases hpy : pyInt ((env "MCP_PORT").getD "8000") with e | n
    · simp [run_http_server, hpy] at hr
    · simp only [run_http_server, hpy, he, Option.getD_some] at hr
      injection hr with hc
      rw [← hc]
  · intro env s n c he hpy hr
    simp only [run_http_server, he, Option.getD_some, hpy] at hr
    injection hr with hc
    rw [← hc]
  · intro env h c he hr
    rcases hpy : pyInt ((env "MCP_SSE_PORT").getD ((env "MCP_PORT").getD "8000")) with e | n
    · simp [run_sse_server, hpy] at hr
    · simp only [run_sse_server, hpy, he, Option.getD_some] at hr
      injection hr with hc
      rw [← hc]
  · intro env h c hsse he hr
    rcases hpy : pyInt ((env "MCP_SSE_PORT").getD ((env "MCP_PORT").getD "8000")) with e | n
    · simp [run_sse_server, hpy] at hr
    · simp only [run_sse_server, hpy, hsse, he, Option.getD_some, Option.getD_none] at hr
      injection hr with hc
      rw [← hc]
  · intro env s n c he hpy hr
    simp only [run_sse_server, he, Option.getD_some, hpy] at hr
    injection hr with hc
    rw [← hc]

/-- An environment setting all four listener variables, for the witness. -/
def envBoth : Env := fun k =>
  if k = "MCP_SSE_HOST" then some "198.51.100.7"
  else if k = "MCP_HOST" then some "203.0.113.9"
  else if k = "MCP_SSE_PORT" then some "9001"
  else if k = "MCP_PORT" then some "9000"
  else none

/-- Concrete witness for the configuration theorem: the overrides of `envBoth`
are honoured by both entry points, with the SSE-specific variables taking
precedence in the event-stream-only mode. -/
theorem bind_defaults_overrides_witness :
    BindConfig.host ⟨"203.0.113.9", 9000⟩ = "203.0.113.9" ∧
    BindConfig.port ⟨"203.0.113.9", 9000⟩ = 9000 ∧
    BindConfig.host ⟨"198.51.100.7", 9001⟩ = "198.51.100.7" ∧
    BindConfig.port ⟨"198.51.100.7", 9001⟩ = 9001 := by
  have h := bind_defaults_overrides
  refine ⟨?_, ?_, ?_, ?_⟩
  · exact h.2.1 envBoth "203.0.113.9" ⟨"203.0.113.9", 9000⟩ (by decide) (by decide)
  · exact h.2.2.1 envBoth "9000" 9000 ⟨"203.0.113.9", 9000⟩ (by decide) rfl (by decide)
  · exact h.2.2.2.2.1 envBoth "198.51.100.7" ⟨"198.51.100.7", 9001⟩ (by decide) (by decide)
  · exact h.2.2.2.2.2.2 envBoth "9001" 9001 ⟨"198.51.100.7", 9001⟩ (by decide) rfl
      (by decide)

/-- C10: a non-integer MCP_PORT (or, in the event-stream-only mode, a
non-integer MCP_SSE_PORT, or a non-integer MCP_PORT with MCP_SSE_PORT unset)
makes startup raise during port parsing: no socket is ever bound, so in
particular the process never falls back to the default port. -/
theorem invalid_port_raises :
    (∀ (env : Env) (s : String), env "MCP_PORT" = some s → (pyInt s).isOk = false →
        (run_http_server env).isBound = false) ∧
    (∀ (env : Env) (s : String), env "MCP_SSE_PORT" = some s → (pyInt s).isOk = false →
        (run_sse_server env).isBound = false) ∧
    (∀ (env : Env) (s : String), env "MCP_SSE_PORT" = none → env "MCP_PORT" = some s →
        (pyInt s).isOk = false → (run_sse_server env).isBound = false) := by
  refine ⟨?_, ?_, ?_⟩
  · intro env s he hbad
    rcases hpy : pyInt s with e | n
    · simp [run_http_server, he, hpy, StartupOutcome.isBound]
    · rw [hpy] at hbad
      simp [Except.isOk, Except.toBool] at hbad
  · intro env s he hbad
    rcases hpy : pyInt s with e | n
    · simp [run_sse_server, he, hpy, StartupOutcome.isBound]
    · rw [hpy] at hbad
      simp [Except.isOk, Except.toBool] at hbad
  · intro env s hsse he hbad
    rcases hpy : pyInt s with e | n
    · simp [run_sse_server, hsse, he, hpy, StartupOutcome.isBound]
    · rw [hpy] at hbad
      simp [Except.isOk, Except.toBool] at hbad

/-- An environment whose MCP_PORT is not a valid integer, for the witness. -/
def envBadPort : Env := fun k =>
  if k = "MCP_PORT" then some "not-a-number" else none

/-- Concrete witness for the invalid-port theorem: with MCP_PORT set to
`not-a-number`, neither entry point reaches the socket bind. -/
theorem invalid_port_raises_witness :
    (run_http_server envBadPort).isBound = false ∧
    (run_sse_server envBadPort).isBound = false := by
  have h := invalid_port_raises
  exact ⟨h.1 envBadPort "not-a-number" (by decide) (by decide),
    h.2.2 envBadPort "not-a-number" (by decide) (by decide) (by decide)⟩

end AnalyticsMcp
